import Mathlib

/-!
Shallow embedding of `src/linkbio.py` (the linkbio static "link-in-bio"
page generator) and proofs about its build / preview / start pipeline.

External collaborators are modelled as opaque parameters, following the
spec's scoping: the YAML decoder is a function `String → Except String Yaml`,
the Jinja2 engine is a function from template source text and bindings to
rendered text, HTTP fetches are a function `String → Except String String`.
The project directory tree is modelled explicitly: a directory is an
association list of named entries, each a file (with string content) or a
subdirectory.
-/

namespace LinkBio

/-- A decoded structured-document value, as produced by the opaque YAML
decoder (`yaml.safe_load`): null, a scalar, a sequence, or a mapping with
string keys. -/
inductive Yaml where
  | null : Yaml
  | scalar (s : String) : Yaml
  | seqVal (items : List Yaml) : Yaml
  | mapVal (entries : List (String × Yaml)) : Yaml

/-- `isinstance(config, dict)` of the decoded value. -/
def Yaml.isMap : Yaml → Bool
  | .mapVal _ => true
  | _ => false

/-- The name→value bindings passed to a template render
(`template.render(**config)` passes the whole config mapping;
`template.render()` passes the empty bindings). -/
abbrev Bindings := List (String × Yaml)

/-- A node of the on-disk tree: a file with its content, or a directory of
named entries. -/
inductive FsTree where
  | file (content : String) : FsTree
  | dir (entries : List (String × FsTree)) : FsTree

/-- Look a name up in a directory's entry list. -/
def lookupEntry (n : String) : List (String × FsTree) → Option FsTree
  | [] => none
  | (m, t) :: es => if m = n then some t else lookupEntry n es

/-- Remove every entry with the given name (`shutil.rmtree` of that child,
or deleting that file). -/
def removeEntry (n : String) : List (String × FsTree) → List (String × FsTree)
  | [] => []
  | (m, t) :: es => if m = n then removeEntry n es else (m, t) :: removeEntry n es

/-- Write an entry under the given name, overwriting an existing entry of
that name and appending otherwise. -/
def setEntry (n : String) (t : FsTree) : List (String × FsTree) → List (String × FsTree)
  | [] => [(n, t)]
  | (m, u) :: es => if m = n then (n, t) :: es else (m, u) :: setEntry n t es

/-- The project layout rooted at `root_dir`, as `LinkBioGenerator.__init__`
derives it: the config file `linkbio.yaml`, the `assets/` and `templates/`
source directories, and the `page/` output directory (`OUTPUT_DIR_NAME`).
`none` models an absent file or directory. -/
structure ProjectState where
  rootDir : String
  configFile : Option String
  assetsDir : Option (List (String × FsTree))
  templatesDir : Option (List (String × FsTree))
  pageDir : Option (List (String × FsTree))

/-- `GITHUB_BASE_URL` of the source. -/
def GITHUB_BASE_URL : String :=
  "https://raw.githubusercontent.com/andersonbraz/linkbio/main"

/-- `ASSET_FILES` of the source. In the Python list the two adjacent string
literals `"sun.svg" "verified.svg"` (no comma between them) concatenate
into the single element `"sun.svgverified.svg"`, so the list has six
elements, embedded here by the same concatenation. -/
def ASSET_FILES : List String :=
  ["bg-desktop-light.jpg",
   "bg-desktop.jpg",
   "bg-mobile-light.jpg",
   "bg-mobile.jpg",
   "moon-stars.svg",
   "sun.svg" ++ "verified.svg"]

/-- `TEMPLATE_FILES` of the source. -/
def TEMPLATE_FILES : List String :=
  ["index.html.jinja2", "script.js.jinja2", "style.css.jinja2"]

/-- The errors `_load_config` can raise: `FileNotFoundError`,
`yaml.YAMLError`, or `ValueError`, each with its message. -/
inductive LoadError where
  | fileNotFound (msg : String) : LoadError
  | yamlError (msg : String) : LoadError
  | valueError (msg : String) : LoadError

/-- The `FileNotFoundError` message of `_load_config` for root `r` (the
f-string "Arquivo 'linkbio.yaml' não encontrado em {root}. Execute
'linkbio start' primeiro."). -/
def notFoundMessage (r : String) : String :=
  ("Arquivo 'linkbio.yaml' não encontrado em " ++ r ++ ". ") ++
    "Execute 'linkbio start' primeiro."

/-- The `ValueError` message of `_load_config`. -/
def validationMessage : String :=
  "O conteúdo do linkbio.yaml não é um dicionário válido."

/-- `LinkBioGenerator._load_config`: raises `FileNotFoundError` when
`linkbio.yaml` is absent; otherwise decodes the file with the opaque YAML
parser (re-raising its `yaml.YAMLError`), raises `ValueError` when the
decoded value is not a mapping, and returns the mapping otherwise. -/
def loadConfig (parse : String → Except String Yaml) (st : ProjectState) :
    Except LoadError (List (String × Yaml)) :=
  match st.configFile with
  | none => .error (.fileNotFound (notFoundMessage st.rootDir))
  | some text =>
    match parse text with
    | .error e => .error (.yamlError e)
    | .ok v =>
      match v with
      | .mapVal m => .ok m
      | _ => .error (.valueError validationMessage)

/-- `self.env.get_template(name)`: the Jinja2 `FileSystemLoader` raises
`TemplateNotFound` when the templates directory or the named template file
is absent; otherwise it yields the template source text. -/
def getTemplate (st : ProjectState) (tname : String) : Except String String :=
  match st.templatesDir with
  | none => .error ("TemplateNotFound: " ++ tname)
  | some entries =>
    match lookupEntry tname entries with
    | some (.file src) => .ok src
    | _ => .error ("TemplateNotFound: " ++ tname)

/-- `self.output_dir.mkdir(exist_ok=True)`: create `page/` when absent,
keep it as it is otherwise. -/
def ensurePageDir (st : ProjectState) : ProjectState :=
  { st with pageDir := some (st.pageDir.getD []) }

/-- `self._write_file(self.output_dir / fname, content)`: write a file into
`page/`, overwriting an existing entry of that name. -/
def writePageFile (fname : String) (content : String) (st : ProjectState) : ProjectState :=
  { st with pageDir := some (setEntry fname (.file content) (st.pageDir.getD [])) }

/-- How one `_copy_assets_to_output` run ends: the tree was copied, the copy
was skipped with a logged warning because `assets/` is absent, or the
remove/copy raised and the `except` branch reported the message. -/
inductive CopyOutcome where
  | copied : CopyOutcome
  | skippedNoSource : CopyOutcome
  | failed (msg : String) : CopyOutcome

/-- Environment fault injected into `_copy_assets_to_output`'s `try` block:
no fault, `shutil.rmtree` raising (permissions, ...), or `shutil.copytree`
raising (disk full, ...). -/
inductive CopyFault where
  | noFault : CopyFault
  | removeFails (msg : String) : CopyFault
  | copyFails (msg : String) : CopyFault

/-- Whether a fault actually fires in a run: `rmtree` runs only when the
destination `page/assets` already exists (`hasDest`), `copytree` always
runs (when a firing `rmtree` fault has not aborted the block first). -/
def CopyFault.fires : CopyFault → Bool → Option String
  | .noFault, _ => none
  | .removeFails m, true => some m
  | .removeFails _, false => none
  | .copyFails m, _ => some m

/-- Whether the destination `page/assets` exists in a state. -/
def hasAssetsDest (st : ProjectState) : Bool :=
  (lookupEntry "assets" (st.pageDir.getD [])).isSome

/-- `LinkBioGenerator._copy_assets_to_output` (= the spec's
`AssetPublisher.publish`): when `assets/` is absent, log a warning and
return at once; otherwise ensure `page/` exists, remove a pre-existing
`page/assets` in full, and copy the whole `assets/` tree to `page/assets`.
Every exception inside the `try` is caught and reported as a warning. -/
def copyAssetsToOutput (fault : CopyFault) (st : ProjectState) : ProjectState × CopyOutcome :=
  match st.assetsDir with
  | none => (st, .skippedNoSource)
  | some src =>
    let st1 := ensurePageDir st
    let page := st1.pageDir.getD []
    if (lookupEntry "assets" page).isSome then
      match fault with
      | .removeFails m => (st1, .failed m)
      | .copyFails m =>
        ({ st1 with pageDir := some (removeEntry "assets" page) }, .failed m)
      | .noFault =>
        ({ st1 with pageDir := some (setEntry "assets" (.dir src) (removeEntry "assets" page)) },
         .copied)
    else
      match fault with
      | .copyFails m => (st1, .failed m)
      | _ => ({ st1 with pageDir := some (setEntry "assets" (.dir src) page) }, .copied)

/-- What `build` prints at its end: the config-load failure message
("Falha no build"), the render/write failure message ("Erro durante o
build"), or the success message ("Build concluído") — the last carries the
asset-copy outcome, whose failure is only a warning printed before it. -/
inductive BuildResult where
  | configFailure : BuildResult
  | buildError (msg : String) : BuildResult
  | success (copy : CopyOutcome) : BuildResult

/-- `LinkBioGenerator.build`: create `page/` first, load the config
(reporting "Falha no build" and returning on any load error), then inside a
`try` fetch the three templates, render and write `index.html`, `style.css`
and `script.js` in that order, and copy the assets (which catches its own
errors); any other exception is reported as "Erro durante o build".
`jinja` is the opaque template engine: template source text and bindings
in, rendered text or a raised error out. -/
def build (parse : String → Except String Yaml)
    (jinja : String → Bindings → Except String String)
    (fault : CopyFault) (st : ProjectState) : ProjectState × BuildResult :=
  let st0 := ensurePageDir st
  match loadConfig parse st0 with
  | .error _ => (st0, .configFailure)
  | .ok config =>
    match getTemplate st0 "index.html.jinja2" with
    | .error e => (st0, .buildError e)
    | .ok htmlSrc =>
      match getTemplate st0 "style.css.jinja2" with
      | .error e => (st0, .buildError e)
      | .ok cssSrc =>
        match getTemplate st0 "script.js.jinja2" with
        | .error e => (st0, .buildError e)
        | .ok jsSrc =>
          match jinja htmlSrc config with
          | .error e => (st0, .buildError e)
          | .ok htmlOut =>
            let st1 := writePageFile "index.html" htmlOut st0
            match jinja cssSrc [] with
            | .error e => (st1, .buildError e)
            | .ok cssOut =>
              let st2 := writePageFile "style.css" cssOut st1
              match jinja jsSrc [] with
              | .error e => (st2, .buildError e)
              | .ok jsOut =>
                let st3 := writePageFile "script.js" jsOut st2
                let p := copyAssetsToOutput fault st3
                (p.1, .success p.2)

/-- How a `preview` invocation proceeds after its build step: the HTTP
server is started on `page/` (serving), or the directory-existence check
fails and preview returns with "Execute 'linkbio build' primeiro". Either
way the build's own result is what was reported for the build phase. -/
inductive PreviewOutcome where
  | serving (buildRes : BuildResult) : PreviewOutcome
  | dirMissing (buildRes : BuildResult) : PreviewOutcome

/-- The `preview` CLI command up to the point the server starts: run
`generator.build()` (whose result is only printed, never returned), then
check `web_dir.is_dir()`; when the check passes the `TCPServer` is started
over `page/`. -/
def preview (parse : String → Except String Yaml)
    (jinja : String → Bindings → Except String String)
    (fault : CopyFault) (st : ProjectState) : ProjectState × PreviewOutcome :=
  let p := build parse jinja fault st
  if p.1.pageDir.isSome then (p.1, .serving p.2) else (p.1, .dirMissing p.2)

/-- The example `linkbio.yaml` content written by `LinkBioGenerator.start`. -/
def defaultConfigYaml : String :=
"username: 'andersonbraz_coder'
title: 'LinkBio - Anderson Braz'
avatar: 'https://avatars.githubusercontent.com/u/1479033?s=400&u=8b677aed22d26ab5b6d5fe84d9ae73a9c02143e8&v=4'
url: 'https://andersonbraz.github.io/bio/'
description: 'Project git-pages with LinkBio.'
name_author: 'Anderson Braz'
url_author: 'https://andersonbraz.com'
fav_icon: 'href=\"https://github.githubassets.com/favicons/favicon-dark.png\"'

nav:
  - text: 'Documentação'
    url: 'https://andersonbraz.github.io'
  - text: 'Blog'
    url: 'https://andersonbraz.com'
  - text: 'Credenciais'
    url: 'https://www.credly.com/users/andersonbraz/badges'

social:
  - icon: 'logo-github'
    url: 'https://github.com/andersonbraz'
  - icon: 'logo-instagram'
    url: 'https://instagram.com/andersonbraz_coder'
  - icon: 'logo-youtube'
    url: 'https://youtube.com/@andersonbraz_coder'
  - icon: 'logo-linkedin'
    url: 'https://linkedin.com/in/anderson-braz'
"

/-- Environment of one `start` run: the opaque HTTP client (`requests.get`
plus the chunked write of the response, either of which can raise — URL in,
body text or error out), and the outcome of writing `linkbio.yaml`
(`_write_file` can raise `IOError`). -/
structure StartEnv where
  fetch : String → Except String String
  writeConfig : Except String Unit

/-- The download loop of `LinkBioGenerator.start` over one file list:
fetch `dirUrl/f` for each name `f` in order, writing each body into the
directory, and re-raise at the first failure (no retry, no continuation). -/
def downloadFiles (fetch : String → Except String String) (dirUrl : String) :
    List String → List (String × FsTree) → List (String × FsTree) × Except String Unit
  | [], dirEntries => (dirEntries, .ok ())
  | f :: rest, dirEntries =>
    match fetch (dirUrl ++ "/" ++ f) with
    | .error e => (dirEntries, .error e)
    | .ok content => downloadFiles fetch dirUrl rest (setEntry f (.file content) dirEntries)

/-- The asset URLs `start` fetches: `GITHUB_BASE_URL/assets/filename` for
each entry of `ASSET_FILES`, exactly as `downloadFiles` forms them. -/
def startAssetUrls : List String :=
  ASSET_FILES.map (fun f => GITHUB_BASE_URL ++ "/assets" ++ "/" ++ f)

/-- `LinkBioGenerator.start`: create `assets/` and `templates/`
(`exist_ok=True`), write the example `linkbio.yaml`, then download every
`ASSET_FILES` entry into `assets/` and every `TEMPLATE_FILES` entry into
`templates/`, propagating the first raised error. -/
def generatorStart (env : StartEnv) (st : ProjectState) : ProjectState × Except String Unit :=
  let st1 := { st with assetsDir := some (st.assetsDir.getD []),
                       templatesDir := some (st.templatesDir.getD []) }
  match env.writeConfig with
  | .error e => (st1, .error e)
  | .ok _ =>
    let st2 := { st1 with configFile := some defaultConfigYaml }
    let pa := downloadFiles env.fetch (GITHUB_BASE_URL ++ "/assets") ASSET_FILES
      (st2.assetsDir.getD [])
    let st3 := { st2 with assetsDir := some pa.1 }
    match pa.2 with
    | .error e => (st3, .error e)
    | .ok _ =>
      let pt := downloadFiles env.fetch (GITHUB_BASE_URL ++ "/templates") TEMPLATE_FILES
        (st3.templatesDir.getD [])
      let st4 := { st3 with templatesDir := some pt.1 }
      match pt.2 with
      | .error e => (st4, .error e)
      | .ok _ => (st4, .ok ())

/-- What a CLI command run leaves behind: the process exit code (click
exits 0 when the command function returns normally, 1 when an exception
escapes it) and the error summary echoed, if any. -/
structure CliReport where
  exitCode : Nat
  errorPrinted : Option String

/-- The `start` CLI command: run `generator.start()` inside
`try/except Exception`; on an exception, echo the "Falha grave no start"
summary and return normally — so the command function never lets the
exception escape and click exits 0 on both paths. -/
def startCli (env : StartEnv) (st : ProjectState) : ProjectState × CliReport :=
  let p := generatorStart env st
  match p.2 with
  | .ok _ => (p.1, { exitCode := 0, errorPrinted := none })
  | .error e =>
    (p.1, { exitCode := 0,
            errorPrinted := some ("❌ Falha grave no start: Não foi possível baixar todos os arquivos ou criar a estrutura. Erro: " ++ e) })

/-- `true` iff the `Except` value is an `ok`. -/
def exceptOk {ε α : Type} : Except ε α → Bool
  | .ok _ => true
  | .error _ => false

/-! ### Helper lemmas about the directory model -/

theorem lookup_set_same (n : String) (t : FsTree) (es : List (String × FsTree)) :
    lookupEntry n (setEntry n t es) = some t := by
  induction es with
  | nil => simp [setEntry, lookupEntry]
  | cons hd tl ih =>
    obtain ⟨m, u⟩ := hd
    by_cases h : m = n <;> simp [setEntry, lookupEntry, h, ih]

theorem lookup_set_other {m n : String} (h : m ≠ n) (t : FsTree)
    (es : List (String × FsTree)) :
    lookupEntry n (setEntry m t es) = lookupEntry n es := by
  induction es with
  | nil => simp [setEntry, lookupEntry, h]
  | cons hd tl ih =>
    obtain ⟨k, u⟩ := hd
    by_cases hk : k = m
    · subst hk
      simp [setEntry, lookupEntry, h]
    · by_cases hn : k = n <;> simp [setEntry, lookupEntry, hk, hn, ih, Ne.symm h]

theorem lookup_remove_other {m n : String} (h : m ≠ n)
    (es : List (String × FsTree)) :
    lookupEntry n (removeEntry m es) = lookupEntry n es := by
  induction es with
  | nil => simp [removeEntry]
  | cons hd tl ih =>
    obtain ⟨k, u⟩ := hd
    by_cases hk : k = m
    · subst hk
      simp [removeEntry, lookupEntry, h, ih]
    · by_cases hn : k = n <;> simp [removeEntry, lookupEntry, hk, hn, ih, Ne.symm h]

theorem loadConfig_ensurePageDir (parse : String → Except String Yaml)
    (st : ProjectState) :
    loadConfig parse (ensurePageDir st) = loadConfig parse st := rfl

theorem getTemplate_ensurePageDir (st : ProjectState) (tname : String) :
    getTemplate (ensurePageDir st) tname = getTemplate st tname := rfl

/-! ### Claim theorems -/

/-- C9: the fixed asset filename list used by the bootstrap fetch contains
two filenames joined without a separator: `ASSET_FILES` has six entries,
the last being the single string "sun.svgverified.svg", so `start` fetches
`{base}/assets/sun.svgverified.svg` and never fetches "sun.svg" or
"verified.svg" as separate resources. -/
theorem C9_asset_files_concatenation :
    ASSET_FILES.length = 6 ∧
    ASSET_FILES.getLast? = some "sun.svgverified.svg" ∧
    "sun.svg" ∉ ASSET_FILES ∧
    "verified.svg" ∉ ASSET_FILES ∧
    (GITHUB_BASE_URL ++ "/assets" ++ "/" ++ "sun.svgverified.svg") ∈ startAssetUrls ∧
    (GITHUB_BASE_URL ++ "/assets" ++ "/" ++ "sun.svg") ∉ startAssetUrls ∧
    (GITHUB_BASE_URL ++ "/assets" ++ "/" ++ "verified.svg") ∉ startAssetUrls := by
  decide

/-- C4: for every project root whose config file is absent,
`_load_config` fails with `FileNotFoundError` (never any other error
kind), and the error message instructs the caller to run `start` first. -/
theorem C4_missing_config_not_found (parse : String → Except String Yaml)
    (st : ProjectState) (h : st.configFile = none) :
    loadConfig parse st = .error (.fileNotFound (notFoundMessage st.rootDir)) ∧
    ∃ p, notFoundMessage st.rootDir = p ++ "Execute 'linkbio start' primeiro." := by
  refine ⟨by simp [loadConfig, h], ?_⟩
  exact ⟨"Arquivo 'linkbio.yaml' não encontrado em " ++ st.rootDir ++ ". ", rfl⟩

theorem C4_missing_config_witness :
    loadConfig (fun _ => Except.ok Yaml.null)
      { rootDir := "/proj", configFile := none, assetsDir := none,
        templatesDir := none, pageDir := none } =
      Except.error (LoadError.fileNotFound (notFoundMessage "/proj")) ∧
    ∃ p, notFoundMessage "/proj" = p ++ "Execute 'linkbio start' primeiro." :=
  C4_missing_config_not_found _ _ rfl

/-- C5: for every config file whose document parses successfully but
decodes to something that is not a mapping, `_load_config` fails with
`ValueError` (the validation error); when it decodes to a mapping, that
mapping is returned. -/
theorem C5_non_mapping_validation (parse : String → Except String Yaml)
    (st : ProjectState) (text : String) (v : Yaml)
    (h1 : st.configFile = some text) (h2 : parse text = .ok v) :
    loadConfig parse st =
      (match v with
       | .mapVal m => .ok m
       | _ => .error (.valueError validationMessage)) := by
  cases v <;> simp [loadConfig, h1, h2]

theorem C5_non_mapping_witness :
    loadConfig (fun _ => Except.ok (Yaml.seqVal [Yaml.scalar "a", Yaml.scalar "b"]))
      { rootDir := ".", configFile := some "- a\n- b", assetsDir := none,
        templatesDir := none, pageDir := none } =
      Except.error (LoadError.valueError validationMessage) :=
  C5_non_mapping_validation _ _ "- a\n- b" (Yaml.seqVal [Yaml.scalar "a", Yaml.scalar "b"])
    rfl rfl

/-- C6: for every project root whose assets source directory does not
exist, `_copy_assets_to_output` logs a warning and returns successfully,
leaving the whole state — in particular the `page/` directory and its
`assets` subdirectory — untouched. -/
theorem C6_publish_no_source (fault : CopyFault) (st : ProjectState)
    (h : st.assetsDir = none) :
    copyAssetsToOutput fault st = (st, CopyOutcome.skippedNoSource) := by
  simp [copyAssetsToOutput, h]

theorem C6_publish_no_source_witness :
    copyAssetsToOutput CopyFault.noFault
      { rootDir := ".", configFile := none, assetsDir := none, templatesDir := none,
        pageDir := some [("index.html", FsTree.file "x")] } =
      ({ rootDir := ".", configFile := none, assetsDir := none, templatesDir := none,
         pageDir := some [("index.html", FsTree.file "x")] },
       CopyOutcome.skippedNoSource) :=
  C6_publish_no_source _ _ rfl

/-! ### Lemmas about `_copy_assets_to_output` and `build` -/

theorem publish_sets_assets (st : ProjectState) (src : List (String × FsTree))
    (h : st.assetsDir = some src) :
    lookupEntry "assets" ((((copyAssetsToOutput CopyFault.noFault st).1).pageDir).getD [])
      = some (FsTree.dir src) := by
  simp only [copyAssetsToOutput, h]
  split
  · simp [ensurePageDir, lookup_set_same]
  · simp [ensurePageDir, lookup_set_same]

theorem copy_preserves_other (fault : CopyFault) (st : ProjectState)
    (n : String) (hn : n ≠ "assets") :
    lookupEntry n ((((copyAssetsToOutput fault st).1).pageDir).getD []) =
      lookupEntry n (st.pageDir.getD []) := by
  cases hA : st.assetsDir with
  | none => simp [copyAssetsToOutput, hA]
  | some src =>
    simp only [copyAssetsToOutput, hA]
    split
    · cases fault <;>
        simp [ensurePageDir, lookup_set_other (Ne.symm hn), lookup_remove_other (Ne.symm hn)]
    · cases fault <;>
        simp [ensurePageDir, lookup_set_other (Ne.symm hn), lookup_remove_other (Ne.symm hn)]

theorem copy_pageDir_isSome (fault : CopyFault) (st : ProjectState)
    (h : st.pageDir.isSome) :
    (((copyAssetsToOutput fault st).1).pageDir).isSome := by
  cases hA : st.assetsDir with
  | none => simpa [copyAssetsToOutput, hA] using h
  | some src =>
    simp only [copyAssetsToOutput, hA]
    split
    · cases fault <;> simp [ensurePageDir]
    · cases fault <;> simp [ensurePageDir]

theorem hasDest_writePageFile (f c : String) (st : ProjectState)
    (hf : f ≠ "assets") :
    hasAssetsDest (writePageFile f c st) = hasAssetsDest st := by
  simp [hasAssetsDest, writePageFile, lookup_set_other hf]

theorem copy_fault_fails (fault : CopyFault) (st : ProjectState)
    (src : List (String × FsTree)) (m : String)
    (hsrc : st.assetsDir = some src)
    (hf : fault.fires (hasAssetsDest st) = some m) :
    (copyAssetsToOutput fault st).2 = CopyOutcome.failed m := by
  cases hd : hasAssetsDest st <;> rw [hd] at hf <;>
    simp only [hasAssetsDest] at hd <;>
    cases fault <;> simp [CopyFault.fires] at hf <;>
    simp [copyAssetsToOutput, hsrc, ensurePageDir, hd, hf]

theorem build_pageDir_isSome (parse : String → Except String Yaml)
    (jinja : String → Bindings → Except String String)
    (fault : CopyFault) (st : ProjectState) :
    (((build parse jinja fault st).1).pageDir).isSome := by
  simp only [build]
  repeat' split
  all_goals first
    | exact copy_pageDir_isSome _ _ (by simp [writePageFile, ensurePageDir])
    | simp [ensurePageDir, writePageFile]

/-! ### Concrete fixtures used by witnesses and counterexamples -/

/-- Template sources of a fully provisioned example project. -/
def exTemplates : List (String × FsTree) :=
  [("index.html.jinja2", FsTree.file "<html>"),
   ("style.css.jinja2", FsTree.file "body"),
   ("script.js.jinja2", FsTree.file "js")]

/-- An example opaque YAML decoder: every document decodes to the mapping
with the single key `title`. -/
def exParse : String → Except String Yaml :=
  fun _ => Except.ok (Yaml.mapVal [("title", Yaml.scalar "Full Flow Test")])

/-- An example opaque template engine: rendering appends "!" to the
template source. -/
def exJinja : String → Bindings → Except String String :=
  fun src _ => Except.ok (src ++ "!")

/-- A fully provisioned example project. -/
def exState : ProjectState :=
  { rootDir := "/proj", configFile := some "title: 'Full Flow Test'",
    assetsDir := some [("imagem.jpg", FsTree.file "IMG")],
    templatesDir := some exTemplates, pageDir := none }

/-- An example project with no `linkbio.yaml` at all. -/
def exNoConfigState : ProjectState :=
  { rootDir := "/proj", configFile := none, assetsDir := none,
    templatesDir := none, pageDir := none }

/-- An example project whose `assets/` holds a file and a nested
subdirectory. -/
def exPubState : ProjectState :=
  { rootDir := "/proj", configFile := none,
    assetsDir := some [("a.txt", FsTree.file "1"),
                       ("sub", FsTree.dir [("icon.svg", FsTree.file "i")])],
    templatesDir := none, pageDir := none }

/-- C7: run twice in a row with different source asset sets, the publisher
leaves `page/assets` matching exactly the second run's source tree —
after run one it is exactly the first source tree, and after run two
exactly the second, with no leftover entry from the first run. -/
theorem C7_publish_twice_exact (st : ProjectState)
    (A B : List (String × FsTree)) (hA : st.assetsDir = some A) :
    lookupEntry "assets" ((((copyAssetsToOutput CopyFault.noFault st).1).pageDir).getD [])
      = some (FsTree.dir A) ∧
    lookupEntry "assets"
      ((((copyAssetsToOutput CopyFault.noFault
          { (copyAssetsToOutput CopyFault.noFault st).1 with assetsDir := some B }).1).pageDir).getD [])
      = some (FsTree.dir B) :=
  ⟨publish_sets_assets _ _ hA, publish_sets_assets _ _ rfl⟩

theorem C7_publish_twice_witness :
    lookupEntry "assets" ((((copyAssetsToOutput CopyFault.noFault exPubState).1).pageDir).getD [])
      = some (FsTree.dir [("a.txt", FsTree.file "1"),
                          ("sub", FsTree.dir [("icon.svg", FsTree.file "i")])]) ∧
    lookupEntry "assets"
      ((((copyAssetsToOutput CopyFault.noFault
          { (copyAssetsToOutput CopyFault.noFault exPubState).1 with
              assetsDir := some [("b.txt", FsTree.file "2")] }).1).pageDir).getD [])
      = some (FsTree.dir [("b.txt", FsTree.file "2")]) :=
  C7_publish_twice_exact exPubState _ _ rfl

/-- C1 (counterexample): on a project with no config file the build phase
of `preview` reports failure ("Falha no build"), yet the directory check
passes (build created `page/` unconditionally) and the HTTP server starts
serving anyway. -/
theorem C1_counterexample :
    (build exParse exJinja CopyFault.noFault exNoConfigState).2
      = BuildResult.configFailure ∧
    (preview exParse exJinja CopyFault.noFault exNoConfigState).2
      = PreviewOutcome.serving BuildResult.configFailure :=
  ⟨rfl, rfl⟩

/-- C1 (amended): `preview` runs the full build first, but a build failure
does not prevent the server from starting: the only check before serving
is that the output directory exists, which every build run guarantees
(it creates `page/` unconditionally before loading the config), so the
server starts whatever the build phase reported. -/
theorem C1_preview_always_serves (parse : String → Except String Yaml)
    (jinja : String → Bindings → Except String String)
    (fault : CopyFault) (st : ProjectState) :
    (preview parse jinja fault st).2 =
      PreviewOutcome.serving (build parse jinja fault st).2 := by
  simp [preview, build_pageDir_isSome]

/-- C10: `build` creates `page/` before the configuration is loaded, so a
build that fails at config loading still leaves an existing `page/`
directory behind, and a subsequent `preview` directory-existence check
passes (the server is started). -/
theorem C10_page_created_before_config (parse : String → Except String Yaml)
    (jinja : String → Bindings → Except String String)
    (fault : CopyFault) (st : ProjectState)
    (h : exceptOk (loadConfig parse st) = false) :
    (build parse jinja fault st).2 = BuildResult.configFailure ∧
    (((build parse jinja fault st).1).pageDir).isSome = true ∧
    (preview parse jinja fault st).2 = PreviewOutcome.serving BuildResult.configFailure := by
  cases hC : loadConfig parse st with
  | ok c => rw [hC] at h; simp [exceptOk] at h
  | error e =>
    have hb : build parse jinja fault st = (ensurePageDir st, BuildResult.configFailure) := by
      simp [build, loadConfig_ensurePageDir, hC]
    refine ⟨by rw [hb], by rw [hb]; simp [ensurePageDir], ?_⟩
    simp [preview, hb, ensurePageDir]

theorem C10_page_created_witness :
    (build exParse exJinja CopyFault.noFault
      { rootDir := "/w", configFile := none, assetsDir := none,
        templatesDir := none, pageDir := none }).2 = BuildResult.configFailure ∧
    (((build exParse exJinja CopyFault.noFault
      { rootDir := "/w", configFile := none, assetsDir := none,
        templatesDir := none, pageDir := none }).1).pageDir).isSome = true ∧
    (preview exParse exJinja CopyFault.noFault
      { rootDir := "/w", configFile := none, assetsDir := none,
        templatesDir := none, pageDir := none }).2
      = PreviewOutcome.serving BuildResult.configFailure :=
  C10_page_created_before_config _ _ _ _ rfl

/-- C8: for every successfully loaded config, `build` renders the markup
template with the full config mapping bound (every top-level key a
template-visible name), renders the stylesheet and script templates with
no external data, and writes the three results to the fixed filenames
`index.html`, `style.css` and `script.js` in `page/`, overwriting any
existing entries (the initial `page/` content is arbitrary). -/
theorem C8_render_and_write (parse : String → Except String Yaml)
    (jinja : String → Bindings → Except String String)
    (fault : CopyFault) (st : ProjectState) (config : Bindings)
    (htmlSrc cssSrc jsSrc htmlOut cssOut jsOut : String)
    (hc : loadConfig parse st = .ok config)
    (h1 : getTemplate st "index.html.jinja2" = .ok htmlSrc)
    (h2 : getTemplate st "style.css.jinja2" = .ok cssSrc)
    (h3 : getTemplate st "script.js.jinja2" = .ok jsSrc)
    (r1 : jinja htmlSrc config = .ok htmlOut)
    (r2 : jinja cssSrc [] = .ok cssOut)
    (r3 : jinja jsSrc [] = .ok jsOut) :
    lookupEntry "index.html" ((((build parse jinja fault st).1).pageDir).getD [])
      = some (FsTree.file htmlOut) ∧
    lookupEntry "style.css" ((((build parse jinja fault st).1).pageDir).getD [])
      = some (FsTree.file cssOut) ∧
    lookupEntry "script.js" ((((build parse jinja fault st).1).pageDir).getD [])
      = some (FsTree.file jsOut) ∧
    ∃ w, (build parse jinja fault st).2 = BuildResult.success w := by
  simp only [build, loadConfig_ensurePageDir, getTemplate_ensurePageDir, hc, h1, h2, h3,
    r1, r2, r3]
  refine ⟨?_, ?_, ?_, ⟨_, rfl⟩⟩
  · rw [copy_preserves_other fault _ "index.html" (by decide)]
    simp [writePageFile, lookup_set_same,
      lookup_set_other (show ("script.js" : String) ≠ "index.html" by decide),
      lookup_set_other (show ("style.css" : String) ≠ "index.html" by decide)]
  · rw [copy_preserves_other fault _ "style.css" (by decide)]
    simp [writePageFile, lookup_set_same,
      lookup_set_other (show ("script.js" : String) ≠ "style.css" by decide)]
  · rw [copy_preserves_other fault _ "script.js" (by decide)]
    simp [writePageFile, lookup_set_same]

theorem C8_render_and_write_witness :
    lookupEntry "index.html"
        ((((build exParse exJinja CopyFault.noFault exState).1).pageDir).getD [])
      = some (FsTree.file "<html>!") ∧
    lookupEntry "style.css"
        ((((build exParse exJinja CopyFault.noFault exState).1).pageDir).getD [])
      = some (FsTree.file "body!") ∧
    lookupEntry "script.js"
        ((((build exParse exJinja CopyFault.noFault exState).1).pageDir).getD [])
      = some (FsTree.file "js!") ∧
    ∃ w, (build exParse exJinja CopyFault.noFault exState).2 = BuildResult.success w :=
  C8_render_and_write _ _ _ _ [("title", Yaml.scalar "Full Flow Test")]
    "<html>" "body" "js" ("<html>" ++ "!") ("body" ++ "!") ("js" ++ "!")
    rfl rfl rfl rfl rfl rfl rfl

/-- C2 (counterexample): with the assets source present and `copytree`
raising "disk full", the build prints the copy warning but then prints the
normal success message — the build as a whole reports success, not
failure (the rendered `index.html` does remain on disk). -/
theorem C2_counterexample :
    (build exParse exJinja (CopyFault.copyFails "disk full") exState).2
      = BuildResult.success (CopyOutcome.failed "disk full") ∧
    lookupEntry "index.html"
        ((((build exParse exJinja (CopyFault.copyFails "disk full") exState).1).pageDir).getD [])
      = some (FsTree.file "<html>!") :=
  ⟨rfl, rfl⟩

/-- C2 (amended): for every build in which removing or copying the assets
tree fails for a reason other than the source directory being absent, the
failure is reported as a console warning and the already-written
`index.html`, `style.css` and `script.js` remain on disk unchanged, but
the build as a whole reports success (the normal success message is still
printed), not failure. -/
theorem C2_copy_failure_reports_success (parse : String → Except String Yaml)
    (jinja : String → Bindings → Except String String)
    (fault : CopyFault) (st : ProjectState) (config : Bindings)
    (srcAssets : List (String × FsTree)) (m : String)
    (htmlSrc cssSrc jsSrc htmlOut cssOut jsOut : String)
    (hc : loadConfig parse st = .ok config)
    (h1 : getTemplate st "index.html.jinja2" = .ok htmlSrc)
    (h2 : getTemplate st "style.css.jinja2" = .ok cssSrc)
    (h3 : getTemplate st "script.js.jinja2" = .ok jsSrc)
    (r1 : jinja htmlSrc config = .ok htmlOut)
    (r2 : jinja cssSrc [] = .ok cssOut)
    (r3 : jinja jsSrc [] = .ok jsOut)
    (hsrc : st.assetsDir = some srcAssets)
    (hfault : fault.fires (hasAssetsDest st) = some m) :
    (build parse jinja fault st).2 = BuildResult.success (CopyOutcome.failed m) ∧
    lookupEntry "index.html" ((((build parse jinja fault st).1).pageDir).getD [])
      = some (FsTree.file htmlOut) ∧
    lookupEntry "style.css" ((((build parse jinja fault st).1).pageDir).getD [])
      = some (FsTree.file cssOut) ∧
    lookupEntry "script.js" ((((build parse jinja fault st).1).pageDir).getD [])
      = some (FsTree.file jsOut) := by
  simp only [build, loadConfig_ensurePageDir, getTemplate_ensurePageDir, hc, h1, h2, h3,
    r1, r2, r3]
  have hW : hasAssetsDest (writePageFile "script.js" jsOut (writePageFile "style.css" cssOut
      (writePageFile "index.html" htmlOut (ensurePageDir st)))) = hasAssetsDest st := by
    rw [hasDest_writePageFile "script.js" jsOut _ (by decide),
        hasDest_writePageFile "style.css" cssOut _ (by decide),
        hasDest_writePageFile "index.html" htmlOut _ (by decide)]
    rfl
  refine ⟨congrArg BuildResult.success
      (copy_fault_fails fault _ srcAssets m hsrc (by rw [hW]; exact hfault)), ?_, ?_, ?_⟩
  · rw [copy_preserves_other fault _ "index.html" (by decide)]
    simp [writePageFile, lookup_set_same,
      lookup_set_other (show ("script.js" : String) ≠ "index.html" by decide),
      lookup_set_other (show ("style.css" : String) ≠ "index.html" by decide)]
  · rw [copy_preserves_other fault _ "style.css" (by decide)]
    simp [writePageFile, lookup_set_same,
      lookup_set_other (show ("script.js" : String) ≠ "style.css" by decide)]
  · rw [copy_preserves_other fault _ "script.js" (by decide)]
    simp [writePageFile, lookup_set_same]

theorem C2_copy_failure_witness :
    (build exParse exJinja (CopyFault.copyFails "no space left on device") exState).2
      = BuildResult.success (CopyOutcome.failed "no space left on device") ∧
    lookupEntry "index.html"
        ((((build exParse exJinja (CopyFault.copyFails "no space left on device") exState).1).pageDir).getD [])
      = some (FsTree.file "<html>!") ∧
    lookupEntry "style.css"
        ((((build exParse exJinja (CopyFault.copyFails "no space left on device") exState).1).pageDir).getD [])
      = some (FsTree.file "body!") ∧
    lookupEntry "script.js"
        ((((build exParse exJinja (CopyFault.copyFails "no space left on device") exState).1).pageDir).getD [])
      = some (FsTree.file "js!") :=
  C2_copy_failure_reports_success _ _ _ _ [("title", Yaml.scalar "Full Flow Test")]
    [("imagem.jpg", FsTree.file "IMG")] "no space left on device"
    "<html>" "body" "js" ("<html>" ++ "!") ("body" ++ "!") ("js" ++ "!")
    rfl rfl rfl rfl rfl rfl rfl rfl rfl

/-- The environment of a `start` run whose very first fetch fails. -/
def exFailEnv : StartEnv :=
  { fetch := fun _ => Except.error "404 Not Found", writeConfig := Except.ok () }

/-- C3 (counterexample): a `start` invocation whose first asset fetch
fails prints the error summary but the command function returns normally,
so the process exit code is 0, not non-zero. -/
theorem C3_counterexample :
    ((startCli exFailEnv exNoConfigState).2).exitCode = 0 ∧
    ((startCli exFailEnv exNoConfigState).2).errorPrinted
      = some ("❌ Falha grave no start: Não foi possível baixar todos os arquivos ou criar a estrutura. Erro: "
          ++ "404 Not Found") :=
  ⟨rfl, rfl⟩

/-- C3 (amended): every `start` invocation exits with code 0 — on success
with no error printed, and on any fetch or local write failure during
provisioning with the printed error summary, because the command catches
the exception and returns normally instead of exiting non-zero. -/
theorem C3_start_exit_code (env : StartEnv) (st : ProjectState) :
    ((startCli env st).2).exitCode = 0 ∧
    ((startCli env st).2).errorPrinted.isSome
      = !(exceptOk (generatorStart env st).2) := by
  cases h : (generatorStart env st).2 with
  | ok _ => simp [startCli, h, exceptOk]
  | error e => simp [startCli, h, exceptOk]

end LinkBio
